import Mathlib

/-!
# Verification of the algo-execution-service core

Shallow embedding, in Lean 4, of the signal-generation and trade-lifecycle
subsystem of the trading service (the Python sources under `app/`), together
with proofs of the behavioural properties stated in its specification.

Modelling conventions:
* Python floats are modelled as rational numbers (`ℚ`); every decimal literal
  occurring in the verified properties (1.0, 1.2, 1.5, 0.5, 0.8, …) is exact
  in both representations.
* A Python method mutating `self` is modelled as a function from the old
  record to the new record (plus its return value).
* The Python `dict` of lifecycle actions returned by
  `ActiveTradeContext.update` is modelled as a record with one `Option`
  field per key the source can set; writing a key twice in one call
  overwrites, exactly as in a dict.
* `datetime.now().date()` is modelled by passing the current day as an
  explicit argument (`today : Nat`, a day index increasing over time).
-/

namespace AlgoExec

/-- The `TradeType` enum of `app/models/trade.py` (`CALL` / `PUT`). -/
inductive TradeType where
  | CALL
  | PUT
deriving DecidableEq, Repr

/-- The values the `log` key of the action dict built by
`ActiveTradeContext.update` can take, one constructor per source message,
keeping the value interpolated into the trailing f-string. -/
inductive LogMsg where
  | breakEven
  | partialBooked
  | trailingUpdated (new_sl : ℚ)
deriving DecidableEq, Repr

/-- The action dict returned by `ActiveTradeContext.update`
(`app/services/trade_lifecycle_manager.py`): one optional entry per key the
source can set.  `none` means the key is absent. -/
structure Actions where
  action : Option String := none
  reason : Option String := none
  price : Option ℚ := none
  update_sl : Option ℚ := none
  partial_exit : Option ℚ := none
  log : Option LogMsg := none
deriving DecidableEq, Repr

/-- The mutable state of `ActiveTradeContext`
(`app/services/trade_lifecycle_manager.py`, lines 52–66): the trade's type
and entry price (read from the wrapped `VirtualTrade`), the ATR at entry,
the current stop, the target, the highest favourable excursion, and the
three idempotence flags. -/
structure ActiveTradeContext where
  tradeType : TradeType
  entry_price : ℚ
  atr : ℚ
  current_sl : ℚ
  target : ℚ
  highest_mfe : ℚ
  is_partial_booked : Bool
  be_moved : Bool
  trailing_active : Bool
deriving DecidableEq, Repr

/-- The stop-hit test at the top of `update`
(`app/services/trade_lifecycle_manager.py`, lines 74–80): the current
price has moved through the current stop. -/
def ActiveTradeContext.stopHit (s : ActiveTradeContext) (current_price : ℚ) : Prop :=
  match s.tradeType with
  | .CALL => current_price ≤ s.current_sl
  | .PUT => current_price ≥ s.current_sl

instance (s : ActiveTradeContext) (p : ℚ) : Decidable (s.stopHit p) := by
  unfold ActiveTradeContext.stopHit
  cases s.tradeType <;> infer_instance

/-- The MFE computation of `update` (lines 82–86): points in favour of the
position. -/
def ActiveTradeContext.mfeOf (s : ActiveTradeContext) (current_price : ℚ) : ℚ :=
  match s.tradeType with
  | .CALL => current_price - s.entry_price
  | .PUT => s.entry_price - current_price

/-- The MFE-tracking assignment of `update` (lines 88–89): raise
`highest_mfe` when the current excursion exceeds it. -/
def ActiveTradeContext.stepMfe (s : ActiveTradeContext) (mfe : ℚ) : ActiveTradeContext :=
  if mfe > s.highest_mfe then { s with highest_mfe := mfe } else s

/-- Block 1 of `update` (lines 93–99): flag-guarded break-even move of the
stop to the entry price at 1.0×ATR. -/
def ActiveTradeContext.stepBreakEven (s : ActiveTradeContext) (mfe : ℚ) (a : Actions) :
    ActiveTradeContext × Actions :=
  if s.be_moved = false ∧ mfe ≥ 1.0 * s.atr then
    ({ s with current_sl := s.entry_price, be_moved := true },
     { a with update_sl := some s.entry_price, log := some .breakEven })
  else (s, a)

/-- Block 2 of `update` (lines 101–105): flag-guarded 50% partial exit at
1.2×ATR. -/
def ActiveTradeContext.stepPartialExit (s : ActiveTradeContext) (mfe : ℚ) (a : Actions) :
    ActiveTradeContext × Actions :=
  if s.is_partial_booked = false ∧ mfe ≥ 1.2 * s.atr then
    ({ s with is_partial_booked := true },
     { a with partial_exit := some 0.5, log := some .partialBooked })
  else (s, a)

/-- Trailing activation of `update` (lines 107–110): trailing becomes (and
stays) active once MFE reaches 1.5×ATR. -/
def ActiveTradeContext.stepTrailFlag (s : ActiveTradeContext) (mfe : ℚ) : ActiveTradeContext :=
  if mfe ≥ 1.5 * s.atr then { s with trailing_active := true } else s

/-- The trailing ratchet of `update` (lines 112–134): while trailing is
active, for a CALL raise the stop to the candle low only when the low
exceeds the current stop (symmetrically lower it to the candle high for a
PUT), and emit an action only when the stop actually changed. -/
def ActiveTradeContext.stepTrail (s : ActiveTradeContext) (high low : ℚ) (a : Actions) :
    ActiveTradeContext × Actions :=
  if s.trailing_active then
    let new_sl := match s.tradeType with
      | .CALL => if low > s.current_sl then low else s.current_sl
      | .PUT => if high < s.current_sl then high else s.current_sl
    if new_sl ≠ s.current_sl then
      ({ s with current_sl := new_sl },
       { a with update_sl := some new_sl, log := some (.trailingUpdated new_sl) })
    else (s, a)
  else (s, a)

/-- `ActiveTradeContext.update(current_price, high, low)`
(`app/services/trade_lifecycle_manager.py`, lines 68–136), the blocks in
source order: the stop-hit early return, the MFE update, the flag-guarded
break-even and partial-exit steps, trailing activation at 1.5×ATR, and the
trailing ratchet.  Returns the new context together with the action
dict. -/
def ActiveTradeContext.update (s : ActiveTradeContext) (current_price high low : ℚ) :
    ActiveTradeContext × Actions :=
  -- 0. Check Hit SL (early return, state unchanged)
  if ActiveTradeContext.stopHit s current_price then
    (s, { action := some "EXIT_ALL", reason := some "STOP_LOSS", price := some s.current_sl })
  else
    let mfe := s.mfeOf current_price
    let s1 := s.stepMfe mfe
    let r2 := s1.stepBreakEven mfe {}
    let r3 := r2.1.stepPartialExit mfe r2.2
    let s4 := r3.1.stepTrailFlag mfe
    s4.stepTrail high low r3.2

/-- A sequence of `update` calls: each list entry is
`(current_price, high, low)`; returns the final context. -/
def ActiveTradeContext.runUpdates (s : ActiveTradeContext)
    (inputs : List (ℚ × ℚ × ℚ)) : ActiveTradeContext :=
  inputs.foldl (fun c i => (c.update i.1 i.2.1 i.2.2).1) s

/-- Scenario A's initial context: CALL trade, entry 100, ATR 10, initial
stop one ATR below entry (90), target 115; fresh lifecycle state. -/
def scenarioA0 : ActiveTradeContext :=
  { tradeType := .CALL, entry_price := 100, atr := 10, current_sl := 90,
    target := 115, highest_mfe := 0, is_partial_booked := false,
    be_moved := false, trailing_active := false }

/-- Scenario A after `update(105, 105, 102)`. -/
def scenarioA1 : ActiveTradeContext × Actions := scenarioA0.update 105 105 102

/-- Scenario A after `update(110, 110, 108)`. -/
def scenarioA2 : ActiveTradeContext × Actions := scenarioA1.1.update 110 110 108

/-- Scenario A after `update(112, 112, 111)`. -/
def scenarioA3 : ActiveTradeContext × Actions := scenarioA2.1.update 112 112 111

/-- Scenario A after `update(115, 115, 113)`. -/
def scenarioA4 : ActiveTradeContext × Actions := scenarioA3.1.update 115 115 113

/-- C1.  Scenario A: for a CALL context with entry 100 and ATR 10, the
call `update(105,105,102)` returns no actions; `update(110,110,108)` moves
the stop to exactly 100 (break-even action, no partial exit);,
`update(112,112,111)` emits the 50% partial exit exactly once (not on any
other call of the scenario); `update(115,115,113)` activates trailing and
moves the stop to 113. -/
theorem scenarioA_behaviour :
    scenarioA1.2 = {} ∧
    scenarioA2.1.current_sl = 100 ∧ scenarioA2.2.update_sl = some 100 ∧
    scenarioA2.2.partial_exit = none ∧
    scenarioA3.2.partial_exit = some 0.5 ∧
    scenarioA1.2.partial_exit = none ∧ scenarioA4.2.partial_exit = none ∧
    scenarioA4.1.trailing_active = true ∧
    scenarioA4.1.current_sl = 113 ∧ scenarioA4.2.update_sl = some 113 := by
  have h1 : scenarioA1 =
      (⟨.CALL, 100, 10, 90, 115, 5, false, false, false⟩, {}) := by
    unfold scenarioA1 scenarioA0
    norm_num [ActiveTradeContext.update, ActiveTradeContext.stopHit,
      ActiveTradeContext.mfeOf, ActiveTradeContext.stepMfe,
      ActiveTradeContext.stepBreakEven, ActiveTradeContext.stepPartialExit,
      ActiveTradeContext.stepTrailFlag, ActiveTradeContext.stepTrail]
  have h2 : scenarioA2 =
      (⟨.CALL, 100, 10, 100, 115, 10, false, true, false⟩,
       { update_sl := some 100, log := some .breakEven }) := by
    unfold scenarioA2
    rw [h1]
    norm_num [ActiveTradeContext.update, ActiveTradeContext.stopHit,
      ActiveTradeContext.mfeOf, ActiveTradeContext.stepMfe,
      ActiveTradeContext.stepBreakEven, ActiveTradeContext.stepPartialExit,
      ActiveTradeContext.stepTrailFlag, ActiveTradeContext.stepTrail]
  have h3 : scenarioA3 =
      (⟨.CALL, 100, 10, 100, 115, 12, true, true, false⟩,
       { partial_exit := some 0.5, log := some .partialBooked }) := by
    unfold scenarioA3
    rw [h2]
    norm_num [ActiveTradeContext.update, ActiveTradeContext.stopHit,
      ActiveTradeContext.mfeOf, ActiveTradeContext.stepMfe,
      ActiveTradeContext.stepBreakEven, ActiveTradeContext.stepPartialExit,
      ActiveTradeContext.stepTrailFlag, ActiveTradeContext.stepTrail]
  have h4 : scenarioA4 =
      (⟨.CALL, 100, 10, 113, 115, 15, true, true, true⟩,
       { update_sl := some 113, log := some (.trailingUpdated 113) }) := by
    unfold scenarioA4
    rw [h3]
    norm_num [ActiveTradeContext.update, ActiveTradeContext.stopHit,
      ActiveTradeContext.mfeOf, ActiveTradeContext.stepMfe,
      ActiveTradeContext.stepBreakEven, ActiveTradeContext.stepPartialExit,
      ActiveTradeContext.stepTrailFlag, ActiveTradeContext.stepTrail]
  rw [h1, h2, h3, h4]
  exact ⟨rfl, rfl, rfl, rfl, rfl, rfl, rfl, rfl, rfl, rfl⟩

/-- C4.  Stop-hit exclusivity and frame: when the current price has moved
through the stop, `update` returns exactly the `EXIT_ALL` action with
reason `STOP_LOSS` at the current stop price, with every other action key
absent, and the whole lifecycle state (MFE, flags, stop) unchanged. -/
theorem stop_hit_exclusive (s : ActiveTradeContext) (p h l : ℚ)
    (hhit : s.stopHit p) :
    s.update p h l =
      (s, { action := some "EXIT_ALL", reason := some "STOP_LOSS",
            price := some s.current_sl }) := by
  unfold ActiveTradeContext.update
  rw [if_pos hhit]

/-- Witness for C4 at a concrete input: a CALL context with stop 90 and
price 89 exits with `EXIT_ALL`/`STOP_LOSS` at 90 and is otherwise
untouched. -/
theorem stop_hit_exclusive_witness :
    scenarioA0.update 89 95 88 =
      (scenarioA0, { action := some "EXIT_ALL", reason := some "STOP_LOSS",
                     price := some 90 }) :=
  stop_hit_exclusive scenarioA0 89 95 88 (by
    unfold ActiveTradeContext.stopHit scenarioA0
    norm_num)

/-- Number of `update` calls, along a sequence of inputs, on which the
break-even step fires (observable as the `be_moved` flag switching from
`false` to `true` on that call, the call on which the stop is set to the
entry price). -/
def countBreakEven : ActiveTradeContext → List (ℚ × ℚ × ℚ) → Nat
  | _, [] => 0
  | s, i :: rest =>
    let s' := (s.update i.1 i.2.1 i.2.2).1
    (if s'.be_moved = true ∧ s.be_moved = false then 1 else 0) + countBreakEven s' rest

/-- Number of `update` calls, along a sequence of inputs, whose returned
action dict contains the `partial_exit` key (the 50% partial-exit
action). -/
def countPartialExit : ActiveTradeContext → List (ℚ × ℚ × ℚ) → Nat
  | _, [] => 0
  | s, i :: rest =>
    let r := s.update i.1 i.2.1 i.2.2
    (if (r.2.partial_exit).isSome = true then 1 else 0) + countPartialExit r.1 rest

@[simp] theorem stepMfe_tradeType (s : ActiveTradeContext) (mfe : ℚ) :
    (s.stepMfe mfe).tradeType = s.tradeType := by
  unfold ActiveTradeContext.stepMfe; split_ifs <;> rfl

@[simp] theorem stepMfe_atr (s : ActiveTradeContext) (mfe : ℚ) :
    (s.stepMfe mfe).atr = s.atr := by
  unfold ActiveTradeContext.stepMfe; split_ifs <;> rfl

@[simp] theorem stepMfe_entry (s : ActiveTradeContext) (mfe : ℚ) :
    (s.stepMfe mfe).entry_price = s.entry_price := by
  unfold ActiveTradeContext.stepMfe; split_ifs <;> rfl

@[simp] theorem stepMfe_sl (s : ActiveTradeContext) (mfe : ℚ) :
    (s.stepMfe mfe).current_sl = s.current_sl := by
  unfold ActiveTradeContext.stepMfe; split_ifs <;> rfl

@[simp] theorem stepMfe_be (s : ActiveTradeContext) (mfe : ℚ) :
    (s.stepMfe mfe).be_moved = s.be_moved := by
  unfold ActiveTradeContext.stepMfe; split_ifs <;> rfl

@[simp] theorem stepMfe_booked (s : ActiveTradeContext) (mfe : ℚ) :
    (s.stepMfe mfe).is_partial_booked = s.is_partial_booked := by
  unfold ActiveTradeContext.stepMfe; split_ifs <;> rfl

@[simp] theorem stepMfe_trail (s : ActiveTradeContext) (mfe : ℚ) :
    (s.stepMfe mfe).trailing_active = s.trailing_active := by
  unfold ActiveTradeContext.stepMfe; split_ifs <;> rfl

@[simp] theorem stepBreakEven_fst_tradeType (s : ActiveTradeContext) (mfe : ℚ) (a : Actions) :
    ((s.stepBreakEven mfe a).1).tradeType = s.tradeType := by
  unfold ActiveTradeContext.stepBreakEven; split_ifs <;> rfl

@[simp] theorem stepBreakEven_fst_atr (s : ActiveTradeContext) (mfe : ℚ) (a : Actions) :
    ((s.stepBreakEven mfe a).1).atr = s.atr := by
  unfold ActiveTradeContext.stepBreakEven; split_ifs <;> rfl

@[simp] theorem stepBreakEven_fst_booked (s : ActiveTradeContext) (mfe : ℚ) (a : Actions) :
    ((s.stepBreakEven mfe a).1).is_partial_booked = s.is_partial_booked := by
  unfold ActiveTradeContext.stepBreakEven; split_ifs <;> rfl

@[simp] theorem stepBreakEven_fst_trail (s : ActiveTradeContext) (mfe : ℚ) (a : Actions) :
    ((s.stepBreakEven mfe a).1).trailing_active = s.trailing_active := by
  unfold ActiveTradeContext.stepBreakEven; split_ifs <;> rfl

@[simp] theorem stepBreakEven_snd_partial_exit (s : ActiveTradeContext) (mfe : ℚ) (a : Actions) :
    ((s.stepBreakEven mfe a).2).partial_exit = a.partial_exit := by
  unfold ActiveTradeContext.stepBreakEven; split_ifs <;> rfl

theorem stepBreakEven_of_moved (s : ActiveTradeContext) (mfe : ℚ) (a : Actions)
    (hb : s.be_moved = true) : s.stepBreakEven mfe a = (s, a) := by
  unfold ActiveTradeContext.stepBreakEven
  rw [if_neg]
  simp [hb]

theorem stepBreakEven_be_mono (s : ActiveTradeContext) (mfe : ℚ) (a : Actions)
    (hb : s.be_moved = true) : ((s.stepBreakEven mfe a).1).be_moved = true := by
  rw [stepBreakEven_of_moved s mfe a hb]
  exact hb

@[simp] theorem stepPartialExit_fst_tradeType (s : ActiveTradeContext) (mfe : ℚ) (a : Actions) :
    ((s.stepPartialExit mfe a).1).tradeType = s.tradeType := by
  unfold ActiveTradeContext.stepPartialExit; split_ifs <;> rfl

@[simp] theorem stepPartialExit_fst_atr (s : ActiveTradeContext) (mfe : ℚ) (a : Actions) :
    ((s.stepPartialExit mfe a).1).atr = s.atr := by
  unfold ActiveTradeContext.stepPartialExit; split_ifs <;> rfl

@[simp] theorem stepPartialExit_fst_be (s : ActiveTradeContext) (mfe : ℚ) (a : Actions) :
    ((s.stepPartialExit mfe a).1).be_moved = s.be_moved := by
  unfold ActiveTradeContext.stepPartialExit; split_ifs <;> rfl

@[simp] theorem stepPartialExit_fst_trail (s : ActiveTradeContext) (mfe : ℚ) (a : Actions) :
    ((s.stepPartialExit mfe a).1).trailing_active = s.trailing_active := by
  unfold ActiveTradeContext.stepPartialExit; split_ifs <;> rfl

@[simp] theorem stepPartialExit_fst_sl (s : ActiveTradeContext) (mfe : ℚ) (a : Actions) :
    ((s.stepPartialExit mfe a).1).current_sl = s.current_sl := by
  unfold ActiveTradeContext.stepPartialExit; split_ifs <;> rfl

@[simp] theorem stepPartialExit_snd_update_sl (s : ActiveTradeContext) (mfe : ℚ) (a : Actions) :
    ((s.stepPartialExit mfe a).2).update_sl = a.update_sl := by
  unfold ActiveTradeContext.stepPartialExit; split_ifs <;> rfl

theorem stepPartialExit_of_booked (s : ActiveTradeContext) (mfe : ℚ) (a : Actions)
    (hb : s.is_partial_booked = true) : s.stepPartialExit mfe a = (s, a) := by
  unfold ActiveTradeContext.stepPartialExit
  rw [if_neg]
  simp [hb]

theorem stepPartialExit_booked_mono (s : ActiveTradeContext) (mfe : ℚ) (a : Actions)
    (hb : s.is_partial_booked = true) :
    ((s.stepPartialExit mfe a).1).is_partial_booked = true := by
  rw [stepPartialExit_of_booked s mfe a hb]
  exact hb

theorem stepPartialExit_emit (s : ActiveTradeContext) (mfe : ℚ) (a : Actions)
    (he : ((s.stepPartialExit mfe a).2).partial_exit.isSome = true) :
    a.partial_exit.isSome = true ∨ ((s.stepPartialExit mfe a).1).is_partial_booked = true := by
  unfold ActiveTradeContext.stepPartialExit at he ⊢
  split_ifs at he ⊢ <;> simp_all

@[simp] theorem stepTrailFlag_tradeType (s : ActiveTradeContext) (mfe : ℚ) :
    (s.stepTrailFlag mfe).tradeType = s.tradeType := by
  unfold ActiveTradeContext.stepTrailFlag; split_ifs <;> rfl

@[simp] theorem stepTrailFlag_atr (s : ActiveTradeContext) (mfe : ℚ) :
    (s.stepTrailFlag mfe).atr = s.atr := by
  unfold ActiveTradeContext.stepTrailFlag; split_ifs <;> rfl

@[simp] theorem stepTrailFlag_sl (s : ActiveTradeContext) (mfe : ℚ) :
    (s.stepTrailFlag mfe).current_sl = s.current_sl := by
  unfold ActiveTradeContext.stepTrailFlag; split_ifs <;> rfl

@[simp] theorem stepTrailFlag_be (s : ActiveTradeContext) (mfe : ℚ) :
    (s.stepTrailFlag mfe).be_moved = s.be_moved := by
  unfold ActiveTradeContext.stepTrailFlag; split_ifs <;> rfl

@[simp] theorem stepTrailFlag_booked (s : ActiveTradeContext) (mfe : ℚ) :
    (s.stepTrailFlag mfe).is_partial_booked = s.is_partial_booked := by
  unfold ActiveTradeContext.stepTrailFlag; split_ifs <;> rfl

theorem stepTrailFlag_trail_mono (s : ActiveTradeContext) (mfe : ℚ)
    (hb : s.trailing_active = true) : (s.stepTrailFlag mfe).trailing_active = true := by
  unfold ActiveTradeContext.stepTrailFlag; split_ifs <;> simp [hb]

@[simp] theorem stepTrail_fst_tradeType (s : ActiveTradeContext) (h l : ℚ) (a : Actions) :
    ((s.stepTrail h l a).1).tradeType = s.tradeType := by
  unfold ActiveTradeContext.stepTrail
  cases hty : s.tradeType <;> dsimp only <;> split_ifs <;> simp [hty]

@[simp] theorem stepTrail_fst_atr (s : ActiveTradeContext) (h l : ℚ) (a : Actions) :
    ((s.stepTrail h l a).1).atr = s.atr := by
  unfold ActiveTradeContext.stepTrail
  cases hty : s.tradeType <;> dsimp only <;> split_ifs <;> simp [hty]

@[simp] theorem stepTrail_fst_be (s : ActiveTradeContext) (h l : ℚ) (a : Actions) :
    ((s.stepTrail h l a).1).be_moved = s.be_moved := by
  unfold ActiveTradeContext.stepTrail
  cases hty : s.tradeType <;> dsimp only <;> split_ifs <;> simp [hty]

@[simp] theorem stepTrail_fst_booked (s : ActiveTradeContext) (h l : ℚ) (a : Actions) :
    ((s.stepTrail h l a).1).is_partial_booked = s.is_partial_booked := by
  unfold ActiveTradeContext.stepTrail
  cases hty : s.tradeType <;> dsimp only <;> split_ifs <;> simp [hty]

@[simp] theorem stepTrail_fst_trail (s : ActiveTradeContext) (h l : ℚ) (a : Actions) :
    ((s.stepTrail h l a).1).trailing_active = s.trailing_active := by
  unfold ActiveTradeContext.stepTrail
  cases hty : s.tradeType <;> dsimp only <;> split_ifs <;> simp [hty]

@[simp] theorem stepTrail_snd_partial_exit (s : ActiveTradeContext) (h l : ℚ) (a : Actions) :
    ((s.stepTrail h l a).2).partial_exit = a.partial_exit := by
  unfold ActiveTradeContext.stepTrail
  cases hty : s.tradeType <;> dsimp only <;> split_ifs <;> simp [hty]

theorem update_be_moved_mono (s : ActiveTradeContext) (p h l : ℚ)
    (hb : s.be_moved = true) : ((s.update p h l).1).be_moved = true := by
  unfold ActiveTradeContext.update
  split_ifs with h0
  · exact hb
  · simp [stepBreakEven_of_moved (s.stepMfe (s.mfeOf p)) (s.mfeOf p) {} (by simp [hb]), hb]

theorem update_booked_mono (s : ActiveTradeContext) (p h l : ℚ)
    (hb : s.is_partial_booked = true) :
    ((s.update p h l).1).is_partial_booked = true := by
  unfold ActiveTradeContext.update
  split_ifs with h0
  · exact hb
  · dsimp only
    rw [stepTrail_fst_booked, stepTrailFlag_booked,
      stepPartialExit_booked_mono _ _ _ (by simp [hb])]

theorem countBreakEven_of_moved (s : ActiveTradeContext)
    (ins : List (ℚ × ℚ × ℚ)) (hb : s.be_moved = true) :
    countBreakEven s ins = 0 := by
  induction ins generalizing s with
  | nil => rfl
  | cons i rest ih =>
    unfold countBreakEven
    dsimp only
    rw [if_neg (by simp [hb]), ih _ (update_be_moved_mono s i.1 i.2.1 i.2.2 hb)]

theorem update_no_partial_of_booked (s : ActiveTradeContext) (p h l : ℚ)
    (hb : s.is_partial_booked = true) :
    ((s.update p h l).2).partial_exit = none := by
  unfold ActiveTradeContext.update
  split_ifs with h0
  · rfl
  · dsimp only
    rw [stepTrail_snd_partial_exit, stepPartialExit_of_booked _ _ _ (by simp [hb])]
    dsimp only
    rw [stepBreakEven_snd_partial_exit]

theorem update_partial_emit_books (s : ActiveTradeContext) (p h l : ℚ)
    (he : ((s.update p h l).2).partial_exit.isSome = true) :
    ((s.update p h l).1).is_partial_booked = true := by
  unfold ActiveTradeContext.update at he ⊢
  split_ifs at he ⊢ with h0
  · simp at he
  · rw [stepTrail_snd_partial_exit] at he
    rcases stepPartialExit_emit _ _ _ he with hc | hc
    · rw [stepBreakEven_snd_partial_exit] at hc
      simp at hc
    · simp [hc]

theorem countPartialExit_of_booked (s : ActiveTradeContext)
    (ins : List (ℚ × ℚ × ℚ)) (hb : s.is_partial_booked = true) :
    countPartialExit s ins = 0 := by
  induction ins generalizing s with
  | nil => rfl
  | cons i rest ih =>
    unfold countPartialExit
    dsimp only
    rw [if_neg (by simp [update_no_partial_of_booked s i.1 i.2.1 i.2.2 hb]),
      ih _ (update_booked_mono s i.1 i.2.1 i.2.2 hb)]

/-- C3.  Lifecycle idempotence: along any sequence of `update` calls from
any context, the break-even step (stop set to the entry price) fires at
most once, and the 50% partial-exit action is emitted at most once —
both are guarded by flags that are set on first firing and never
cleared. -/
theorem lifecycle_idempotence (s : ActiveTradeContext)
    (ins : List (ℚ × ℚ × ℚ)) :
    countBreakEven s ins ≤ 1 ∧ countPartialExit s ins ≤ 1 := by
  constructor
  · induction ins generalizing s with
    | nil => exact Nat.zero_le 1
    | cons i rest ih =>
      unfold countBreakEven
      dsimp only
      by_cases hfire :
          ((s.update i.1 i.2.1 i.2.2).1).be_moved = true ∧ s.be_moved = false
      · rw [if_pos hfire, countBreakEven_of_moved _ rest hfire.1]
      · rw [if_neg hfire]
        simpa using ih (s.update i.1 i.2.1 i.2.2).1
  · induction ins generalizing s with
    | nil => exact Nat.zero_le 1
    | cons i rest ih =>
      unfold countPartialExit
      dsimp only
      by_cases hfire : ((s.update i.1 i.2.1 i.2.2).2).partial_exit.isSome = true
      · rw [if_pos hfire, countPartialExit_of_booked _ rest
          (update_partial_emit_books s i.1 i.2.1 i.2.2 hfire)]
      · rw [if_neg hfire]
        simpa using ih (s.update i.1 i.2.1 i.2.2).1

theorem update_tradeType (s : ActiveTradeContext) (p h l : ℚ) :
    ((s.update p h l).1).tradeType = s.tradeType := by
  unfold ActiveTradeContext.update
  split_ifs with h0
  · rfl
  · simp

theorem update_trailing_mono (s : ActiveTradeContext) (p h l : ℚ)
    (htr : s.trailing_active = true) :
    ((s.update p h l).1).trailing_active = true := by
  unfold ActiveTradeContext.update
  split_ifs with h0
  · exact htr
  · dsimp only
    rw [stepTrail_fst_trail, stepTrailFlag_trail_mono _ _ (by simp [htr])]

theorem stepTrail_sl_mono_call (s : ActiveTradeContext) (h l : ℚ) (a : Actions)
    (hty : s.tradeType = .CALL) :
    s.current_sl ≤ ((s.stepTrail h l a).1).current_sl := by
  unfold ActiveTradeContext.stepTrail
  rw [hty]
  dsimp only
  split_ifs <;> dsimp only <;> linarith

theorem stepTrail_sl_anti_put (s : ActiveTradeContext) (h l : ℚ) (a : Actions)
    (hty : s.tradeType = .PUT) :
    ((s.stepTrail h l a).1).current_sl ≤ s.current_sl := by
  unfold ActiveTradeContext.stepTrail
  rw [hty]
  dsimp only
  split_ifs <;> dsimp only <;> linarith

theorem update_sl_mono_call (s : ActiveTradeContext) (p h l : ℚ)
    (hty : s.tradeType = .CALL) (hbe : s.be_moved = true) :
    s.current_sl ≤ ((s.update p h l).1).current_sl := by
  unfold ActiveTradeContext.update
  split_ifs with h0
  · exact le_refl _
  · dsimp only
    rw [stepBreakEven_of_moved _ _ _ (by simp [hbe])]
    dsimp only
    exact le_trans (le_of_eq (by simp))
      (stepTrail_sl_mono_call _ h l _ (by simp [hty]))

theorem update_sl_anti_put (s : ActiveTradeContext) (p h l : ℚ)
    (hty : s.tradeType = .PUT) (hbe : s.be_moved = true) :
    ((s.update p h l).1).current_sl ≤ s.current_sl := by
  unfold ActiveTradeContext.update
  split_ifs with h0
  · exact le_refl _
  · dsimp only
    rw [stepBreakEven_of_moved _ _ _ (by simp [hbe])]
    dsimp only
    exact le_trans (stepTrail_sl_anti_put _ h l _ (by simp [hty]))
      (le_of_eq (by simp))

theorem runUpdates_sl_mono_call (s : ActiveTradeContext) (ins : List (ℚ × ℚ × ℚ))
    (hty : s.tradeType = .CALL) (hbe : s.be_moved = true) :
    s.current_sl ≤ (s.runUpdates ins).current_sl := by
  induction ins generalizing s with
  | nil => exact le_refl _
  | cons i rest ih =>
    unfold ActiveTradeContext.runUpdates at ih ⊢
    rw [List.foldl_cons]
    exact le_trans (update_sl_mono_call s i.1 i.2.1 i.2.2 hty hbe)
      (ih (s.update i.1 i.2.1 i.2.2).1
        (by rw [update_tradeType]; exact hty)
        (update_be_moved_mono s i.1 i.2.1 i.2.2 hbe))

theorem runUpdates_sl_anti_put (s : ActiveTradeContext) (ins : List (ℚ × ℚ × ℚ))
    (hty : s.tradeType = .PUT) (hbe : s.be_moved = true) :
    (s.runUpdates ins).current_sl ≤ s.current_sl := by
  induction ins generalizing s with
  | nil => exact le_refl _
  | cons i rest ih =>
    unfold ActiveTradeContext.runUpdates at ih ⊢
    rw [List.foldl_cons]
    exact le_trans
      (ih (s.update i.1 i.2.1 i.2.2).1
        (by rw [update_tradeType]; exact hty)
        (update_be_moved_mono s i.1 i.2.1 i.2.2 hbe))
      (update_sl_anti_put s i.1 i.2.1 i.2.2 hty hbe)

theorem update_trail_raises (s : ActiveTradeContext) (p h l : ℚ)
    (hty : s.tradeType = .CALL) (htr : s.trailing_active = true)
    (hbe : s.be_moved = true) (h0 : ¬ s.stopHit p) (hlow : l > s.current_sl) :
    ((s.update p h l).1).current_sl = l ∧ ((s.update p h l).2).update_sl = some l := by
  unfold ActiveTradeContext.update
  rw [if_neg h0]
  dsimp only
  rw [stepBreakEven_of_moved _ _ _ (by simp [hbe])]
  dsimp only
  unfold ActiveTradeContext.stepTrail
  rw [if_pos (stepTrailFlag_trail_mono _ _ (by simp [htr]))]
  have h1 : (((s.stepMfe (s.mfeOf p)).stepPartialExit (s.mfeOf p) {}).1.stepTrailFlag
      (s.mfeOf p)).tradeType = TradeType.CALL := by simp [hty]
  rw [h1]
  dsimp only
  simp only [stepTrailFlag_sl, stepPartialExit_fst_sl, stepMfe_sl,
    stepPartialExit_snd_update_sl, stepBreakEven_snd_partial_exit]
  rw [if_pos hlow, if_pos (ne_of_gt hlow)]
  exact ⟨rfl, rfl⟩

theorem update_no_trail_action (s : ActiveTradeContext) (p h l : ℚ)
    (hty : s.tradeType = .CALL) (htr : s.trailing_active = true)
    (hbe : s.be_moved = true) (hle : l ≤ s.current_sl) :
    ((s.update p h l).1).current_sl = s.current_sl ∧
    ((s.update p h l).2).update_sl = none := by
  unfold ActiveTradeContext.update
  split_ifs with h0
  · exact ⟨rfl, rfl⟩
  · dsimp only
    rw [stepBreakEven_of_moved _ _ _ (by simp [hbe])]
    dsimp only
    unfold ActiveTradeContext.stepTrail
    rw [if_pos (stepTrailFlag_trail_mono _ _ (by simp [htr]))]
    have h1 : (((s.stepMfe (s.mfeOf p)).stepPartialExit (s.mfeOf p) {}).1.stepTrailFlag
        (s.mfeOf p)).tradeType = TradeType.CALL := by simp [hty]
    rw [h1]
    dsimp only
    simp only [stepTrailFlag_sl, stepPartialExit_fst_sl, stepMfe_sl]
    rw [if_neg (not_lt.mpr hle), if_neg (by simp)]
    constructor
    · simp
    · simp

theorem update_trailing_implies_be (s : ActiveTradeContext) (p h l : ℚ)
    (hatr : 0 ≤ s.atr) (hinv : s.trailing_active = true → s.be_moved = true)
    (hpost : ((s.update p h l).1).trailing_active = true) :
    ((s.update p h l).1).be_moved = true := by
  by_cases hbe : s.be_moved = true
  · exact update_be_moved_mono s p h l hbe
  · have hbe' : s.be_moved = false := by
      cases hb : s.be_moved
      · rfl
      · exact absurd hb hbe
    have htr0 : s.trailing_active = false := by
      cases ht : s.trailing_active
      · rfl
      · exact absurd (hinv ht) hbe
    unfold ActiveTradeContext.update at hpost ⊢
    split_ifs at hpost ⊢ with h0
    · rw [htr0] at hpost
      exact absurd hpost (by simp)
    · dsimp only at hpost ⊢
      have hmf : s.mfeOf p ≥ 1.5 * s.atr := by
        by_contra hc
        rw [stepTrail_fst_trail] at hpost
        unfold ActiveTradeContext.stepTrailFlag at hpost
        simp only [stepPartialExit_fst_atr, stepBreakEven_fst_atr, stepMfe_atr] at hpost
        rw [if_neg hc] at hpost
        simp only [stepPartialExit_fst_trail, stepBreakEven_fst_trail, stepMfe_trail,
          htr0] at hpost
        exact absurd hpost (by simp)
      rw [stepTrail_fst_be, stepTrailFlag_be, stepPartialExit_fst_be]
      have hcond : (s.stepMfe (s.mfeOf p)).be_moved = false ∧
          s.mfeOf p ≥ 1.0 * (s.stepMfe (s.mfeOf p)).atr := by
        constructor
        · simp [hbe']
        · simp only [stepMfe_atr]
          have h15 : (1.0 : ℚ) * s.atr ≤ 1.5 * s.atr := by linarith
          exact le_trans h15 hmf
      unfold ActiveTradeContext.stepBreakEven
      rw [if_pos hcond]

/-- C2.  Trailing monotonicity: once trailing is active (states reachable
from a fresh context then also have the break-even flag set, which the
last conjunct justifies), a CALL context's stop never decreases across any
sequence of `update` calls and a PUT context's stop never increases; the
stop is raised to the supplied candle low exactly when the low exceeds the
current stop, and no stop-update action is emitted when the computed new
stop equals the current stop. -/
theorem trailing_monotonicity :
    (∀ (s : ActiveTradeContext) (ins : List (ℚ × ℚ × ℚ)),
      s.tradeType = .CALL → s.trailing_active = true → s.be_moved = true →
      s.current_sl ≤ (s.runUpdates ins).current_sl) ∧
    (∀ (s : ActiveTradeContext) (ins : List (ℚ × ℚ × ℚ)),
      s.tradeType = .PUT → s.trailing_active = true → s.be_moved = true →
      (s.runUpdates ins).current_sl ≤ s.current_sl) ∧
    (∀ (s : ActiveTradeContext) (p h l : ℚ),
      s.tradeType = .CALL → s.trailing_active = true → s.be_moved = true →
      ¬ s.stopHit p → l > s.current_sl →
      ((s.update p h l).1).current_sl = l ∧ ((s.update p h l).2).update_sl = some l) ∧
    (∀ (s : ActiveTradeContext) (p h l : ℚ),
      s.tradeType = .CALL → s.trailing_active = true → s.be_moved = true →
      l ≤ s.current_sl →
      ((s.update p h l).1).current_sl = s.current_sl ∧
      ((s.update p h l).2).update_sl = none) ∧
    (∀ (s : ActiveTradeContext) (p h l : ℚ), 0 ≤ s.atr →
      (s.trailing_active = true → s.be_moved = true) →
      ((s.update p h l).1).trailing_active = true →
      ((s.update p h l).1).be_moved = true) :=
  ⟨fun s ins hty _ hbe => runUpdates_sl_mono_call s ins hty hbe,
   fun s ins hty _ hbe => runUpdates_sl_anti_put s ins hty hbe,
   fun s p h l hty htr hbe h0 hlow => update_trail_raises s p h l hty htr hbe h0 hlow,
   fun s p h l hty htr hbe hle => update_no_trail_action s p h l hty htr hbe hle,
   fun s p h l hatr hinv hpost => update_trailing_implies_be s p h l hatr hinv hpost⟩

/-- A concrete CALL context with trailing active, used to witness C2. -/
def trailCtxCall : ActiveTradeContext :=
  { tradeType := .CALL, entry_price := 100, atr := 10, current_sl := 105,
    target := 115, highest_mfe := 20, is_partial_booked := true,
    be_moved := true, trailing_active := true }

/-- A concrete PUT context with trailing active, used to witness C2. -/
def trailCtxPut : ActiveTradeContext :=
  { tradeType := .PUT, entry_price := 100, atr := 10, current_sl := 95,
    target := 85, highest_mfe := 20, is_partial_booked := true,
    be_moved := true, trailing_active := true }

/-- Witness for C2, instantiating each conjunct at concrete inputs. -/
theorem trailing_monotonicity_witness :
    (trailCtxCall.current_sl ≤ (trailCtxCall.runUpdates [(120, 121, 107)]).current_sl) ∧
    ((trailCtxPut.runUpdates [(80, 93, 79)]).current_sl ≤ trailCtxPut.current_sl) ∧
    ((trailCtxCall.update 120 121 107).1.current_sl = 107 ∧
      (trailCtxCall.update 120 121 107).2.update_sl = some 107) ∧
    ((trailCtxCall.update 120 121 103).1.current_sl = trailCtxCall.current_sl ∧
      (trailCtxCall.update 120 121 103).2.update_sl = none) ∧
    ((trailCtxCall.update 120 121 107).1.trailing_active = true →
      (trailCtxCall.update 120 121 107).1.be_moved = true) :=
  ⟨trailing_monotonicity.1 trailCtxCall _ rfl rfl rfl,
   trailing_monotonicity.2.1 trailCtxPut _ rfl rfl rfl,
   trailing_monotonicity.2.2.1 trailCtxCall 120 121 107 rfl rfl rfl
     (by unfold ActiveTradeContext.stopHit trailCtxCall; norm_num)
     (by unfold trailCtxCall; norm_num),
   trailing_monotonicity.2.2.2.1 trailCtxCall 120 121 103 rfl rfl rfl
     (by unfold trailCtxCall; norm_num),
   trailing_monotonicity.2.2.2.2 trailCtxCall 120 121 107
     (by unfold trailCtxCall; norm_num) (fun _ => rfl)⟩

/-- The reasons the risk governor can give for blocking (the constant parts
of the f-strings returned by `DailyRiskMonitor.can_trade` and
`RiskEngine.can_trade`). -/
inductive RiskReason where
  | locked
  | maxTrades
  | maxLoss
  | ok
deriving DecidableEq, Repr

/-- `DailyRiskMonitor` (`app/services/trade_lifecycle_manager.py`, lines
5–50): per-day trade count, realized P&L and sticky lock.  The current
local date is passed explicitly (`datetime.now().date()` in the source);
days are a monotone `Nat` index. -/
structure DailyRiskMonitor where
  max_trades : Nat
  max_loss_amt : ℚ
  current_date : Nat
  trades_taken : Nat
  daily_pnl : ℚ
  is_locked : Bool
  last_trade_result : String
deriving DecidableEq, Repr

/-- `DailyRiskMonitor.check_new_day` (lines 16–22): on the first access
after the calendar date advances, reset count, P&L and lock. -/
def DailyRiskMonitor.check_new_day (m : DailyRiskMonitor) (today : Nat) : DailyRiskMonitor :=
  if today > m.current_date then
    { m with current_date := today, trades_taken := 0, daily_pnl := 0, is_locked := false }
  else m

/-- `DailyRiskMonitor.can_trade` (lines 24–36): day rollover first, then the
lock, count and loss checks in source order.  Returns the mutated monitor
with the verdict. -/
def DailyRiskMonitor.can_trade (m : DailyRiskMonitor) (today : Nat) :
    DailyRiskMonitor × Bool × RiskReason :=
  let m := m.check_new_day today
  if m.is_locked then (m, false, .locked)
  else if m.trades_taken ≥ m.max_trades then (m, false, .maxTrades)
  else if m.daily_pnl ≤ -m.max_loss_amt then (m, false, .maxLoss)
  else (m, true, .ok)

/-- `DailyRiskMonitor.record_trade` (lines 38–50): bump count, accumulate
P&L, remember the win/loss tag, and lock when the loss threshold is
breached. -/
def DailyRiskMonitor.record_trade (m : DailyRiskMonitor) (pnl : ℚ) : DailyRiskMonitor :=
  let m := { m with trades_taken := m.trades_taken + 1, daily_pnl := m.daily_pnl + pnl,
                    last_trade_result := if pnl < 0 then "LOSS" else "WIN" }
  if m.daily_pnl ≤ -m.max_loss_amt then { m with is_locked := true } else m

/-- One day's Redis-backed risk counters for `RiskEngine`
(`app/services/risk_engine.py`): absent keys read as zero / unlocked, as in
`get_stats` (lines 31–43). -/
structure RiskDay where
  trades : Nat
  pnl : ℚ
  locked : Bool
deriving DecidableEq, Repr

/-- The default value `get_stats` reads for keys never written. -/
def RiskDay.empty : RiskDay := ⟨0, 0, false⟩

/-- The Redis key space of `RiskEngine`, keyed by the date baked into the
key prefix (`risk:{user}:{date}:…`), modelled as a total map with the
absent-key default folded in. -/
def RedisStore : Type := Nat → RiskDay

/-- `RiskEngine.__init__` (lines 15–25): limits plus the date captured in
the key prefix at construction time. -/
structure RiskEngine where
  max_trades : Nat
  max_loss_amt : ℚ
  day : Nat
deriving DecidableEq, Repr

/-- `RiskEngine.get_stats` (lines 31–43). -/
def RiskEngine.get_stats (e : RiskEngine) (st : RedisStore) : RiskDay := st e.day

/-- `RiskEngine.lock_trading` (lines 78–82): set the locked key. -/
def RiskEngine.lock_trading (e : RiskEngine) (st : RedisStore) : RedisStore :=
  fun d => if d = e.day then { st d with locked := true } else st d

/-- `RiskEngine.can_trade` (lines 45–60): lock, count and loss checks in
source order; observing the loss breach auto-locks as a side effect.
Returns the (possibly written) store with the verdict. -/
def RiskEngine.can_trade (e : RiskEngine) (st : RedisStore) :
    RedisStore × Bool × RiskReason :=
  let stats := e.get_stats st
  if stats.locked then (st, false, .locked)
  else if stats.trades ≥ e.max_trades then (st, false, .maxTrades)
  else if stats.pnl ≤ -e.max_loss_amt then (e.lock_trading st, false, .maxLoss)
  else (st, true, .ok)

/-- `RiskEngine.record_trade` (lines 62–76): atomic increments of the count
and P&L keys, then lock if the fresh P&L breaches the limit. -/
def RiskEngine.record_trade (e : RiskEngine) (st : RedisStore) (pnl : ℚ) : RedisStore :=
  let st1 : RedisStore := fun d =>
    if d = e.day then { st d with trades := (st d).trades + 1, pnl := (st d).pnl + pnl }
    else st d
  if (st1 e.day).pnl ≤ -e.max_loss_amt then e.lock_trading st1 else st1

/-- One intraday interaction with the risk engine: a `can_trade` query
(whose store side effect is kept) or a closed-trade record. -/
inductive RiskOp where
  | canTrade
  | recordTrade (pnl : ℚ)

/-- Run a sequence of same-day risk-engine interactions over the store. -/
def RiskEngine.exec (e : RiskEngine) : RedisStore → List RiskOp → RedisStore
  | st, [] => st
  | st, .canTrade :: rest => e.exec (e.can_trade st).1 rest
  | st, .recordTrade pnl :: rest => e.exec (e.record_trade st pnl) rest

theorem can_trade_of_locked (e : RiskEngine) (st : RedisStore)
    (hl : (st e.day).locked = true) : e.can_trade st = (st, false, .locked) := by
  unfold RiskEngine.can_trade RiskEngine.get_stats
  rw [if_pos hl]

theorem record_trade_keeps_locked (e : RiskEngine) (st : RedisStore) (pnl : ℚ)
    (hl : (st e.day).locked = true) :
    ((e.record_trade st pnl) e.day).locked = true := by
  unfold RiskEngine.record_trade RiskEngine.lock_trading
  split_ifs <;> simp [hl]

theorem exec_keeps_locked (e : RiskEngine) (st : RedisStore) (ops : List RiskOp)
    (hl : (st e.day).locked = true) : ((e.exec st ops) e.day).locked = true := by
  induction ops generalizing st with
  | nil => exact hl
  | cons op rest ih =>
    cases op with
    | canTrade =>
      unfold RiskEngine.exec
      rw [can_trade_of_locked e st hl]
      exact ih st hl
    | recordTrade pnl =>
      unfold RiskEngine.exec
      exact ih _ (record_trade_keeps_locked e st pnl hl)

/-- C5.  Sticky daily lock.  For the Redis-backed `RiskEngine`: a
`can_trade` call that observes the loss breach returns false and sets the
locked key itself; once the day's locked key is set, every later
`can_trade` that day returns false no matter which trades (including
profitable ones) are recorded in between.  For the in-process
`DailyRiskMonitor`: the first access of a later calendar day resets count
and P&L to zero and clears the lock, while same-day accesses never clear
it (`can_trade` keeps the lock and returns false; `record_trade` never
unlocks). -/
theorem sticky_daily_lock :
    (∀ (e : RiskEngine) (st : RedisStore),
      (st e.day).locked = false → (st e.day).trades < e.max_trades →
      (st e.day).pnl ≤ -e.max_loss_amt →
      (e.can_trade st).2.1 = false ∧ (((e.can_trade st).1) e.day).locked = true) ∧
    (∀ (e : RiskEngine) (st : RedisStore) (ops : List RiskOp),
      (st e.day).locked = true → (e.can_trade (e.exec st ops)).2.1 = false) ∧
    (∀ (m : DailyRiskMonitor) (today : Nat), today > m.current_date →
      ((m.can_trade today).1).trades_taken = 0 ∧
      ((m.can_trade today).1).daily_pnl = 0 ∧
      ((m.can_trade today).1).is_locked = false) ∧
    (∀ (m : DailyRiskMonitor) (today : Nat), today ≤ m.current_date →
      m.is_locked = true →
      (m.can_trade today).2.1 = false ∧ ((m.can_trade today).1).is_locked = true) ∧
    (∀ (m : DailyRiskMonitor) (pnl : ℚ), m.is_locked = true →
      (m.record_trade pnl).is_locked = true) := by
  refine ⟨?_, ?_, ?_, ?_, ?_⟩
  · intro e st hl htr hpnl
    unfold RiskEngine.can_trade RiskEngine.get_stats
    rw [if_neg (by simp [hl]), if_neg (by simpa using Nat.not_le.mpr htr), if_pos hpnl]
    refine ⟨rfl, ?_⟩
    unfold RiskEngine.lock_trading
    simp
  · intro e st ops hl
    rw [can_trade_of_locked e _ (exec_keeps_locked e st ops hl)]
  · intro m today hday
    have hc : m.check_new_day today =
        { m with current_date := today, trades_taken := 0, daily_pnl := 0,
                 is_locked := false } := by
      unfold DailyRiskMonitor.check_new_day
      rw [if_pos hday]
    unfold DailyRiskMonitor.can_trade
    rw [hc]
    dsimp only
    split_ifs <;> exact ⟨rfl, rfl, rfl⟩
  · intro m today hday hl
    have hc : m.check_new_day today = m := by
      unfold DailyRiskMonitor.check_new_day
      rw [if_neg (by simpa using Nat.not_lt.mpr hday)]
    unfold DailyRiskMonitor.can_trade
    rw [hc]
    dsimp only
    rw [if_pos hl]
    exact ⟨rfl, hl⟩
  · intro m pnl hl
    unfold DailyRiskMonitor.record_trade
    split_ifs <;> simp [hl]

/-- The Scenario-B style risk engine: max 2 trades, max loss 100, keyed to
day 0. -/
def riskEngineB : RiskEngine := { max_trades := 2, max_loss_amt := 100, day := 0 }

/-- A day-0 store with P&L already at −150 and no lock. -/
def storeBreach : RedisStore := fun _ => { trades := 1, pnl := -150, locked := false }

/-- A day-0 store whose locked key is set. -/
def storeLocked : RedisStore := fun _ => { trades := 1, pnl := -150, locked := true }

/-- A locked monitor on day 3 with two losing trades booked. -/
def monitorLocked : DailyRiskMonitor :=
  { max_trades := 2, max_loss_amt := 100, current_date := 3, trades_taken := 2,
    daily_pnl := -150, is_locked := true, last_trade_result := "LOSS" }

/-- Witness for C5, instantiating every conjunct at concrete inputs. -/
theorem sticky_daily_lock_witness :
    ((riskEngineB.can_trade storeBreach).2.1 = false ∧
      (((riskEngineB.can_trade storeBreach).1) riskEngineB.day).locked = true) ∧
    ((riskEngineB.can_trade (riskEngineB.exec storeLocked
        [.recordTrade 500, .canTrade])).2.1 = false) ∧
    (((monitorLocked.can_trade 4).1).trades_taken = 0 ∧
      ((monitorLocked.can_trade 4).1).daily_pnl = 0 ∧
      ((monitorLocked.can_trade 4).1).is_locked = false) ∧
    ((monitorLocked.can_trade 3).2.1 = false ∧
      ((monitorLocked.can_trade 3).1).is_locked = true) ∧
    ((monitorLocked.record_trade 500).is_locked = true) :=
  ⟨sticky_daily_lock.1 riskEngineB storeBreach rfl (by norm_num [storeBreach, riskEngineB])
      (by norm_num [storeBreach, riskEngineB]),
   sticky_daily_lock.2.1 riskEngineB storeLocked [.recordTrade 500, .canTrade] rfl,
   sticky_daily_lock.2.2.1 monitorLocked 4 (by norm_num [monitorLocked]),
   sticky_daily_lock.2.2.2.1 monitorLocked 3 (by norm_num [monitorLocked]) rfl,
   sticky_daily_lock.2.2.2.2 monitorLocked 500 rfl⟩

/-- The outcome of one advisory-oracle interaction as seen by
`AIValidator.validate_signal` (`app/services/ai_validator.py`): the model
was never configured (no API key), the call or the JSON parse raised, or a
response parsed successfully into a verdict and reason (a missing
`verdict` key already defaulted to `"NO_GO"` by `res_json.get`). -/
inductive OracleOutcome where
  | noModel
  | exn (msg : String)
  | ok (verdict : String) (reason : String)
deriving DecidableEq, Repr

/-- `AIValidator.validate_signal` (`app/services/ai_validator.py`, lines
20–68) as a function of the oracle outcome: returns
`(is_approved, reason)`. -/
def AIValidator.validate_signal : OracleOutcome → Bool × String
  | .noModel => (true, "No API Key configured. Defaulting to GO.")
  | .exn m => (true, "AI Error: " ++ m ++ ". Defaulting to GO.")
  | .ok verdict reason => (verdict == "GO", reason)

/-- C8.  Advisory-oracle fail-open: an unconfigured oracle and any raised
exception both approve (with a reason string); a signal is vetoed exactly
when the oracle responds successfully with a non-GO verdict. -/
theorem oracle_fail_open :
    (AIValidator.validate_signal .noModel).1 = true ∧
    (AIValidator.validate_signal .noModel).2 = "No API Key configured. Defaulting to GO." ∧
    (∀ m : String, (AIValidator.validate_signal (.exn m)).1 = true) ∧
    (∀ v r : String, (AIValidator.validate_signal (.ok v r)).1 = false ↔ v ≠ "GO") := by
  refine ⟨rfl, rfl, fun m => rfl, fun v r => ?_⟩
  simp [AIValidator.validate_signal]

/-- The order-placement response consumed by `UserTrader.handle_signal`
(`app/services/trading_manager.py`): the `status` field and the optional
order id under `data`. -/
structure OrderResp where
  status : String
  order_id : Option String
deriving DecidableEq, Repr

/-- The fields of the signal dict that `handle_signal` reads. -/
structure SignalDict where
  signal : String
  entry_price : ℚ
  stop_loss : ℚ
  target : ℚ
  atr : ℚ
deriving DecidableEq, Repr

/-- A Python call that either returns normally or raises. -/
inductive PyResult (α : Type) where
  | ok (a : α)
  | raised (msg : String)
deriving DecidableEq, Repr

/-- `UserTrader.handle_signal` (`app/services/trading_manager.py`, lines
154–230), as a function of the pieces of state it touches: the current
`active_trade`, the number of rows in `db.trades`, the risk verdict, the
signal, and the broker response to the entry order.  The guards are in
source order.  On the success path the source calls
`ActiveTradeContext(v_trade, atr=…, sl=…, target=…, entry_order_id=…)`
(lines 218–224), but the constructor (trade_lifecycle_manager.py line 53)
accepts no `entry_order_id` parameter, so Python raises `TypeError` there,
before `self.active_trade` is assigned or the row is inserted. -/
def UserTrader.handle_signal (active_trade : Option ActiveTradeContext)
    (db_trades : Nat) (risk_allowed : Bool) (sig : SignalDict)
    (order_resp : OrderResp) : PyResult (Option ActiveTradeContext × Nat) :=
  if active_trade.isSome then .ok (active_trade, db_trades)
  else if risk_allowed = false then .ok (active_trade, db_trades)
  else if order_resp.status == "error" then .ok (active_trade, db_trades)
  else .raised "TypeError: ActiveTradeContext() got an unexpected keyword argument"

/-- C9.  Entry atomicity: when the entry order placement reports an error,
`handle_signal` returns normally with the lifecycle state unchanged — no
`ActiveTradeContext` is created and no trade record is persisted. -/
theorem entry_atomicity (active_trade : Option ActiveTradeContext)
    (db_trades : Nat) (risk_allowed : Bool) (sig : SignalDict)
    (order_resp : OrderResp) (herr : order_resp.status = "error") :
    UserTrader.handle_signal active_trade db_trades risk_allowed sig order_resp =
      .ok (active_trade, db_trades) := by
  unfold UserTrader.handle_signal
  split_ifs with h1 h2 h3
  · rfl
  · rfl
  · rfl
  · exact absurd (by simp [herr]) h3

/-- Witness for C9 at a concrete input: with no open trade, risk allowed
and an error response, the state comes back unchanged. -/
theorem entry_atomicity_witness :
    UserTrader.handle_signal none 0 true
      { signal := "BUY_CALL", entry_price := 100, stop_loss := 90,
        target := 115, atr := 10 }
      { status := "error", order_id := none } = .ok (none, 0) :=
  entry_atomicity none 0 true
    { signal := "BUY_CALL", entry_price := 100, stop_loss := 90,
      target := 115, atr := 10 }
    { status := "error", order_id := none } rfl

/-- `SCALPING_CONFIG['minVolumeRatio']` (`app/services/trend_analyzer.py`,
line 21). -/
def SCALPING_CONFIG_minVolumeRatio : ℚ := 0.8

/-- `SCALPING_CONFIG['minConfidence']` (line 22). -/
def SCALPING_CONFIG_minConfidence : ℚ := 40

/-- `SCALPING_CONFIG['targetPercent']` (line 18). -/
def SCALPING_CONFIG_targetPercent : ℚ := 0.3

/-- `SCALPING_CONFIG['stopLossPercent']` (line 19). -/
def SCALPING_CONFIG_stopLossPercent : ℚ := 0.2

/-- The signal dict produced by `analyze_scalping_signals` as consumed by
`calculate_scalping_confidence` and the entry decision: trend labels, the
RSI value (`none` models a missing or non-numeric entry, the case the
source's `isinstance` guard rejects), and the price-action label. -/
structure Signals where
  ema : String
  supertrend : String
  rsi : Option ℚ
  priceAction : String
deriving DecidableEq, Repr

/-- `calculate_scalping_confidence(signals, volume_ratio)`
(`app/services/trend_analyzer.py`, lines 210–243): the validity guard,
then the four additive contributions (trend alignment 40, RSI 20, price
action 20, volume up to 20), capped at 100. -/
def calculate_scalping_confidence : Option Signals → ℚ → ℚ
  | none, _ => 0
  | some sg, volume_ratio =>
    match sg.rsi with
    | none => 0
    | some rsi =>
      let score : ℚ := 0
      -- Trend alignment (40 points)
      let score := if sg.ema = "BULLISH" ∧ sg.supertrend = "UP" then score + 40
        else if sg.ema = "BEARISH" ∧ sg.supertrend = "DOWN" then score + 40
        else score
      -- RSI (20 points)
      let score := if rsi < 30 ∧ sg.ema = "BULLISH" then score + 20
        else if 70 < rsi ∧ sg.ema = "BEARISH" then score + 20
        else score
      -- Price action (20 points)
      let score := if (sg.priceAction = "BREAKOUT" ∧ sg.ema = "BULLISH") ∨
          (sg.priceAction = "STRONG_BULL" ∧ sg.supertrend = "UP") then score + 20
        else if (sg.priceAction = "BREAKDOWN" ∧ sg.ema = "BEARISH") ∨
          (sg.priceAction = "STRONG_BEAR" ∧ sg.supertrend = "DOWN") then score + 20
        else score
      -- Volume confirmation (20 points)
      let score := if volume_ratio > SCALPING_CONFIG_minVolumeRatio then
          score + 20 * min (volume_ratio - 1) 1
        else score
      min score 100

/-- C10 counterexample.  With no trend/RSI/price-action contribution and a
volume ratio of 0.9 (above the 0.8 gate but below 1), the volume term is
20·(0.9 − 1) = −2, so the function returns −2 < 0, refuting "never
negative". -/
theorem confidence_negative_counterexample :
    calculate_scalping_confidence
      (some { ema := "BULLISH", supertrend := "DOWN", rsi := some 50,
              priceAction := "NEUTRAL" }) 0.9 = -2 ∧ ((-2 : ℚ) < 0) := by
  constructor
  · have h1 : ("BULLISH" : String) ≠ "BEARISH" := by simp
    have h2 : ("DOWN" : String) ≠ "UP" := by simp
    have h3 : ("NEUTRAL" : String) ≠ "BREAKOUT" := by simp
    have h4 : ("NEUTRAL" : String) ≠ "STRONG_BULL" := by simp
    have h5 : ("NEUTRAL" : String) ≠ "BREAKDOWN" := by simp
    have h6 : ("NEUTRAL" : String) ≠ "STRONG_BEAR" := by simp
    norm_num [calculate_scalping_confidence, SCALPING_CONFIG_minVolumeRatio,
      h1, h2, h3, h4, h5, h6]
  · norm_num

/-- C10 (amended).  The confidence score is capped at 100 and always
exceeds −4; it is exactly 0 when the signals dict is missing or its RSI is
not numeric; it can be negative (the counterexample reaches −2) when the
only contribution is a volume ratio strictly between 0.8 and 1. -/
theorem confidence_bounds :
    (∀ (sg : Option Signals) (vr : ℚ), calculate_scalping_confidence sg vr ≤ 100) ∧
    (∀ (sg : Option Signals) (vr : ℚ), -4 < calculate_scalping_confidence sg vr) ∧
    (∀ vr : ℚ, calculate_scalping_confidence none vr = 0) ∧
    (∀ (e st pa : String) (vr : ℚ),
      calculate_scalping_confidence
        (some { ema := e, supertrend := st, rsi := none, priceAction := pa }) vr = 0) := by
  refine ⟨?_, ?_, fun vr => rfl, fun e st pa vr => rfl⟩
  · intro sg vr
    unfold calculate_scalping_confidence
    cases sg with
    | none => norm_num
    | some s =>
      cases hr : s.rsi with
      | none => simp only [hr]; norm_num
      | some r =>
        simp only [hr]
        exact min_le_right _ _
  · intro sg vr
    unfold calculate_scalping_confidence
    cases sg with
    | none => norm_num
    | some s =>
      cases hr : s.rsi with
      | none => simp only [hr]; norm_num
      | some r =>
        simp only [hr]
        refine lt_min ?_ (by norm_num)
        have hvc : SCALPING_CONFIG_minVolumeRatio = (4 : ℚ)/5 := by
          norm_num [SCALPING_CONFIG_minVolumeRatio]
        have hmn : ∀ v : ℚ, v > SCALPING_CONFIG_minVolumeRatio →
            (-1/5 : ℚ) < min (v - 1) 1 := by
          intro v hv
          rw [hvc] at hv
          exact lt_min (by linarith) (by norm_num)
        split_ifs <;>
          first
            | (have hvol := hmn vr (by assumption); linarith)
            | norm_num

/-- The candle dicts built in `analyze_trend`
(`app/services/trend_analyzer.py`, lines 480–491): timestamp (epoch-based,
a monotone `Nat` index), OHLCV and the interval tag. -/
structure Candle where
  timestamp : Nat
  «open» : ℚ
  high : ℚ
  low : ℚ
  close : ℚ
  volume : ℚ
  interval : String
deriving DecidableEq, Repr

/-- The candle-store update of `analyze_trend` (lines 501–511): collect the
timestamps already stored, append only arriving candles whose timestamp is
not among them (the set is computed once, before the loop), and keep the
last 500 entries when the window exceeds 500. -/
def upsertCandles (store batch : List Candle) : List Candle :=
  let existing := store.map (fun c => c.timestamp)
  let appended := store ++ batch.filter (fun c => decide (c.timestamp ∉ existing))
  if appended.length > 500 then appended.drop (appended.length - 500) else appended

theorem upsertCandles_sublist (store batch : List Candle) :
    List.Sublist (upsertCandles store batch)
      (store ++ batch.filter
        (fun c => decide (c.timestamp ∉ store.map (fun c => c.timestamp)))) := by
  unfold upsertCandles
  dsimp only
  split_ifs
  · exact List.drop_sublist _ _
  · exact List.Sublist.refl _

/-- Stored candle at timestamp 1. -/
def candleA : Candle :=
  { timestamp := 1, «open» := 10, high := 12, low := 9, close := 10,
    volume := 100, interval := "I1" }

/-- Stored candle at timestamp 3, close 30. -/
def candleB : Candle :=
  { timestamp := 3, «open» := 11, high := 13, low := 10, close := 30,
    volume := 100, interval := "I1" }

/-- Arriving candle at the same timestamp 3 with a different close (99):
newer data for an already-stored timestamp. -/
def candleB2 : Candle :=
  { timestamp := 3, «open» := 11, high := 13, low := 10, close := 99,
    volume := 100, interval := "I1" }

/-- Arriving candle at the fresh timestamp 2. -/
def candleC : Candle :=
  { timestamp := 2, «open» := 10, high := 12, low := 9, close := 20,
    volume := 100, interval := "I1" }

/-- C6 counterexample.  Feeding the sorted batch [candleC (ts 2),
candleB2 (ts 3, close 99)] into the store [candleA (ts 1), candleB (ts 3,
close 30)] keeps the OLD candle at timestamp 3 (close 30) — the arriving
candle is skipped, not a replacement — and appends the candle with
timestamp 2 at the end, so the stored window [1, 3, 2] is no longer
ordered by timestamp.  Both halves of the claimed behaviour (replace on
equal timestamp; window stays ascending) fail at this input. -/
theorem candle_upsert_counterexample :
    upsertCandles [candleA, candleB] [candleC, candleB2] =
      [candleA, candleB, candleC] ∧
    candleB2.timestamp = candleB.timestamp ∧
    candleB2.close ≠ candleB.close ∧
    ¬ (((upsertCandles [candleA, candleB] [candleC, candleB2]).map
        (fun c => c.timestamp)).Pairwise (· < ·)) := by
  have hres : upsertCandles [candleA, candleB] [candleC, candleB2] =
      [candleA, candleB, candleC] := by
    norm_num [upsertCandles, candleA, candleB, candleB2, candleC]
  refine ⟨hres, rfl, ?_, ?_⟩
  · norm_num [candleB, candleB2]
  · rw [hres]
    simp [candleA, candleB, candleC]

/-- C6 (amended).  The store update is keep-first, not replace: every
candle in the updated window was either already stored, or arrived with a
timestamp not present in the store; when the arriving batch itself has
distinct timestamps, distinctness of stored timestamps is preserved; the
window is trimmed to at most 500 candles; and the ascending order is kept
precisely under the normal feed condition that all fresh timestamps exceed
the stored ones (the counterexample shows it can break otherwise). -/
theorem candle_upsert_amended :
    (∀ (store batch : List Candle) (b : Candle), b ∈ upsertCandles store batch →
      b ∈ store ∨ (b ∈ batch ∧ b.timestamp ∉ store.map (fun c => c.timestamp))) ∧
    (∀ store batch : List Candle,
      (store.map (fun c => c.timestamp)).Nodup →
      (batch.map (fun c => c.timestamp)).Nodup →
      ((upsertCandles store batch).map (fun c => c.timestamp)).Nodup) ∧
    (∀ store batch : List Candle, (upsertCandles store batch).length ≤ 500) ∧
    (∀ store batch : List Candle,
      (store.map (fun c => c.timestamp)).Pairwise (· < ·) →
      (batch.map (fun c => c.timestamp)).Pairwise (· < ·) →
      (∀ t ∈ store.map (fun c => c.timestamp),
        ∀ u ∈ batch.map (fun c => c.timestamp), t < u) →
      ((upsertCandles store batch).map (fun c => c.timestamp)).Pairwise (· < ·)) := by
  refine ⟨?_, ?_, ?_, ?_⟩
  · intro store batch b hb
    have hb' := (upsertCandles_sublist store batch).subset hb
    rcases List.mem_append.mp hb' with h | h
    · exact Or.inl h
    · rcases List.mem_filter.mp h with ⟨hmem, hp⟩
      exact Or.inr ⟨hmem, of_decide_eq_true hp⟩
  · intro store batch hs hbn
    refine List.Nodup.sublist
      (List.Sublist.map _ (upsertCandles_sublist store batch)) ?_
    rw [List.map_append, List.nodup_append]
    refine ⟨hs, List.Nodup.sublist (List.Sublist.map _ (List.filter_sublist _)) hbn, ?_⟩
    intro a ha hafil
    rcases List.mem_map.mp hafil with ⟨c, hc, hct⟩
    rcases List.mem_filter.mp hc with ⟨_, hp⟩
    exact (of_decide_eq_true hp) (hct ▸ ha)
  · intro store batch
    unfold upsertCandles
    dsimp only
    split_ifs with h
    · rw [List.length_drop]
      omega
    · omega
  · intro store batch hs hb hcross
    refine List.Pairwise.sublist
      (List.Sublist.map _ (upsertCandles_sublist store batch)) ?_
    rw [List.map_append, List.pairwise_append]
    refine ⟨hs, List.Pairwise.sublist (List.Sublist.map _ (List.filter_sublist _)) hb, ?_⟩
    intro a ha b hb'
    have hbmem : b ∈ batch.map (fun c => c.timestamp) :=
      (List.Sublist.map _ (List.filter_sublist _)).subset hb'
    exact hcross a ha b hbmem

/-- Witness for C6 (amended), instantiating each conjunct at concrete
stores and batches. -/
theorem candle_upsert_amended_witness :
    (candleC ∈ [candleA] ∨ (candleC ∈ [candleC] ∧
      candleC.timestamp ∉ [candleA].map (fun c => c.timestamp))) ∧
    ((upsertCandles [candleA] [candleC]).map (fun c => c.timestamp)).Nodup ∧
    (upsertCandles [candleA] [candleC]).length ≤ 500 ∧
    ((upsertCandles [candleA] [candleC]).map (fun c => c.timestamp)).Pairwise (· < ·) := by
  have hmem : candleC ∈ upsertCandles [candleA] [candleC] := by
    have : upsertCandles [candleA] [candleC] = [candleA, candleC] := by
      norm_num [upsertCandles, candleA, candleC]
    rw [this]
    simp
  exact ⟨candle_upsert_amended.1 [candleA] [candleC] candleC hmem,
    candle_upsert_amended.2.1 [candleA] [candleC]
      (by simp [candleA]) (by simp [candleC]),
    candle_upsert_amended.2.2.1 [candleA] [candleC],
    candle_upsert_amended.2.2.2 [candleA] [candleC]
      (by simp [candleA]) (by simp [candleC])
      (by simp [candleA, candleC])⟩

/-- The trade document inserted into `db.virtual_trades` by `analyze_trend`
on an accepted entry (`app/services/trend_analyzer.py`, lines 549–564):
the fields the decision computes. -/
structure NewTrade where
  tradeType : TradeType
  entryPrice : ℚ
  targetPrice : ℚ
  stopLoss : ℚ
  quantity : Nat
  status : String
  confidence : ℚ
deriving DecidableEq, Repr

/-- The per-symbol entry decision of `analyze_trend` (lines 519–575): score
the signals, gate on `confidence >= minConfidence`, the per-user open-trade
check and signal consistency, derive the trade direction, re-validate it
against the trend labels, and only then build the new trade document.
Every other path produces nothing: the function returns `None` throughout
and no explicit "ignored"/"rejected" value exists in the source. -/
def tradeEntryDecision (sg : Signals) (volume_ratio : ℚ)
    (can_trade signals_consistent : Bool) (current_price : ℚ)
    (symbol_isBank : Bool) : Option NewTrade :=
  let confidence := calculate_scalping_confidence (some sg) volume_ratio
  if confidence ≥ SCALPING_CONFIG_minConfidence ∧ can_trade = true ∧
      signals_consistent = true then
    let trade_type := if sg.supertrend = "UP" ∧ sg.ema = "BULLISH" then
      TradeType.CALL else TradeType.PUT
    let valid := 0 < current_price ∧
      ((trade_type = .CALL ∧ sg.ema = "BULLISH" ∧ sg.supertrend = "UP") ∨
       (trade_type = .PUT ∧ sg.ema = "BEARISH" ∧ sg.supertrend = "DOWN"))
    if valid then
      some { tradeType := trade_type,
             entryPrice := current_price,
             targetPrice := if trade_type = .CALL then
                 current_price * (1 + SCALPING_CONFIG_targetPercent / 100)
               else current_price * (1 - SCALPING_CONFIG_targetPercent / 100),
             stopLoss := if trade_type = .CALL then
                 current_price * (1 - SCALPING_CONFIG_stopLossPercent / 100)
               else current_price * (1 + SCALPING_CONFIG_stopLossPercent / 100),
             quantity := if symbol_isBank then 15 else 50,
             status := "OPEN",
             confidence := confidence }
    else none
  else none

theorem tradeEntryDecision_below_none (sg : Signals) (vr : ℚ)
    (ct cons : Bool) (price : ℚ) (bank : Bool)
    (hlt : calculate_scalping_confidence (some sg) vr < SCALPING_CONFIG_minConfidence) :
    tradeEntryDecision sg vr ct cons price bank = none := by
  unfold tradeEntryDecision
  dsimp only
  rw [if_neg (fun hc => absurd hc.1 (not_le.mpr hlt))]

/-- A genuine below-threshold candidate: valid numeric RSI, no aligned
contributions, volume ratio 2 contributing the full 20 points — total
score 20, below the 40 gate. -/
def sgLow : Signals :=
  { ema := "BULLISH", supertrend := "DOWN", rsi := some 50, priceAction := "NEUTRAL" }

/-- A no-candidate input: the RSI entry is not numeric, so the validity
guard of `calculate_scalping_confidence` returns 0. -/
def sgInvalid : Signals :=
  { ema := "BULLISH", supertrend := "DOWN", rsi := none, priceAction := "NEUTRAL" }

theorem sgLow_confidence : calculate_scalping_confidence (some sgLow) 2 = 20 := by
  have h1 : ("BULLISH" : String) ≠ "BEARISH" := by simp
  have h2 : ("DOWN" : String) ≠ "UP" := by simp
  have h3 : ("NEUTRAL" : String) ≠ "BREAKOUT" := by simp
  have h4 : ("NEUTRAL" : String) ≠ "STRONG_BULL" := by simp
  have h5 : ("NEUTRAL" : String) ≠ "BREAKDOWN" := by simp
  have h6 : ("NEUTRAL" : String) ≠ "STRONG_BEAR" := by simp
  norm_num [calculate_scalping_confidence, SCALPING_CONFIG_minVolumeRatio, sgLow,
    h1, h2, h3, h4, h5, h6]

/-- C7.  Score gating (amended).  Whenever the computed confidence is below
`minConfidence` (40), the per-symbol analysis produces no trade entry —
but the below-threshold candidate is silently dropped, not surfaced: the
source returns `None` on every path, so the outcome is identical to the
no-candidate outcome (see the counterexample). -/
theorem score_gating (sg : Signals) (vr : ℚ) (ct cons : Bool) (price : ℚ)
    (bank : Bool)
    (hlt : calculate_scalping_confidence (some sg) vr < SCALPING_CONFIG_minConfidence) :
    tradeEntryDecision sg vr ct cons price bank = none :=
  tradeEntryDecision_below_none sg vr ct cons price bank hlt

/-- C7 counterexample.  The candidate `sgLow` scores 20 (a real score,
below the 40 minimum) yet the analysis outcome is exactly `none` — the
same outcome as for the invalid no-candidate input `sgInvalid` (score 0).
No value carrying the score is produced anywhere, so callers cannot
distinguish "candidate rejected for low score" from "no candidate",
refuting the claim that a below-threshold candidate is surfaced as an
explicit "ignored" result. -/
theorem score_gating_counterexample :
    tradeEntryDecision sgLow 2 true true 100 true = none ∧
    tradeEntryDecision sgInvalid 2 true true 100 true = none ∧
    calculate_scalping_confidence (some sgLow) 2 = 20 ∧
    ((20 : ℚ) < SCALPING_CONFIG_minConfidence) ∧
    calculate_scalping_confidence (some sgInvalid) 2 = 0 := by
  have hmin : SCALPING_CONFIG_minConfidence = 40 := by
    norm_num [SCALPING_CONFIG_minConfidence]
  have hinv : calculate_scalping_confidence (some sgInvalid) 2 = 0 := rfl
  refine ⟨?_, ?_, sgLow_confidence, by rw [hmin]; norm_num, hinv⟩
  · exact tradeEntryDecision_below_none sgLow 2 true true 100 true
      (by rw [sgLow_confidence, hmin]; norm_num)
  · exact tradeEntryDecision_below_none sgInvalid 2 true true 100 true
      (by rw [hinv, hmin]; norm_num)

/-- Witness for C7 at a concrete input: the 20-scoring candidate yields no
trade entry. -/
theorem score_gating_witness :
    tradeEntryDecision sgLow 2 true true 100 true = none :=
  score_gating sgLow 2 true true 100 true
    (by rw [sgLow_confidence]; norm_num [SCALPING_CONFIG_minConfidence])

end AlgoExec
